import Mathlib

/-!
Verification of the TanTax tax engine (`src/services/taxEngine.ts`).

The source file contains two variants of the exported function
`calculateTaxEngine`:

* an extended nine-parameter variant (file part 1) that additionally
  computes payroll charges (`folha`), applies an FGTS adjustment to the
  Factor R payroll mass, and routes `hospitalar` through the Factor R
  test as well;
* a six-parameter variant (file part 2) without the `folha` block, whose
  Factor R is the plain `monthlyPayroll * 12 / rbt12` ratio and whose
  Factor R test applies only to `servico_intellectual`.

Both are embedded below: `calculateTaxEngine` is the six-parameter
variant and `calculateTaxEngineExt` the extended one.  JavaScript
numbers are modelled as rationals (`ℚ`).  Every division in the source
is guarded by a positivity test on its denominator except the
presumed-profit effective rate `(lpTotal / monthlyBilling) * 100`; that
one division is modelled by `jsDiv`, whose `none` result stands for the
non-finite value (NaN/Infinity) JavaScript produces on a zero
denominator.  Optional TS parameters have no Lean default values; the
caller defaults (`issRate = 0.05`, `ratRate = 0.02`,
`terceirosRate = 0.058`, `monthlyProLabore = 0`) are passed explicitly
in concrete instances.  The output field `motivoVenda?` is never
assigned by either variant and is omitted from the record.
-/

namespace TanTax

/-- Activity categories, the closed union type of the `activity` parameter. -/
inductive Activity where
  | comercio
  | industria
  | servico_geral
  | servico_intellectual
  | hospitalar
deriving DecidableEq, Repr

/-- One row of a Simples Nacional bracket table: revenue ceiling (`limite`),
nominal rate (`aliquota`), fixed deduction (`deduzir`). -/
structure Bracket where
  limite : ℚ
  aliquota : ℚ
  deduzir : ℚ
deriving DecidableEq, Repr

/-- Bracket table `SIMPLES_TABLE.ANEXO_I` from the source. -/
def ANEXO_I : List Bracket :=
  [⟨180000, 0.04, 0⟩, ⟨360000, 0.073, 5940⟩, ⟨720000, 0.095, 13860⟩,
   ⟨1800000, 0.107, 22500⟩, ⟨3600000, 0.143, 87300⟩, ⟨4800000, 0.19, 378000⟩]

/-- Bracket table `SIMPLES_TABLE.ANEXO_III` from the source. -/
def ANEXO_III : List Bracket :=
  [⟨180000, 0.06, 0⟩, ⟨360000, 0.112, 9360⟩, ⟨720000, 0.135, 17640⟩,
   ⟨1800000, 0.16, 35640⟩, ⟨3600000, 0.21, 125640⟩, ⟨4800000, 0.33, 648000⟩]

/-- Bracket table `SIMPLES_TABLE.ANEXO_V` from the source. -/
def ANEXO_V : List Bracket :=
  [⟨180000, 0.155, 0⟩, ⟨360000, 0.18, 4500⟩, ⟨720000, 0.195, 9900⟩,
   ⟨1800000, 0.205, 17100⟩, ⟨3600000, 0.23, 62100⟩, ⟨4800000, 0.305, 540000⟩]

/-- JavaScript division, keeping track of the non-finite result: `none`
models the NaN/Infinity a zero denominator produces in floating point. -/
def jsDiv (a b : ℚ) : Option ℚ := if b = 0 then none else some (a / b)

/-- Factor R of the six-parameter variant:
`rbt12 > 0 ? (monthlyPayroll * 12) / rbt12 : 0`. -/
def fatorR (rbt12 monthlyPayroll : ℚ) : ℚ :=
  if rbt12 > 0 then (monthlyPayroll * 12) / rbt12 else 0

/-- Salaries net of pro-labore in the extended variant:
`Math.max(0, monthlyPayroll - monthlyProLabore)`. -/
def monthlySalaries (monthlyPayroll monthlyProLabore : ℚ) : ℚ :=
  max 0 (monthlyPayroll - monthlyProLabore)

/-- Payroll mass with FGTS of the extended variant:
`(monthlySalaries * 1.08) + monthlyProLabore`. -/
def massaSalarialComFGTS (monthlyPayroll monthlyProLabore : ℚ) : ℚ :=
  (monthlySalaries monthlyPayroll monthlyProLabore) * 1.08 + monthlyProLabore

/-- Factor R of the extended variant:
`rbt12 > 0 ? (massaSalarialComFGTS * 12) / rbt12 : 0`. -/
def fatorRExt (rbt12 monthlyPayroll monthlyProLabore : ℚ) : ℚ :=
  if rbt12 > 0 then (massaSalarialComFGTS monthlyPayroll monthlyProLabore * 12) / rbt12 else 0

/-- Schedule selection of the six-parameter variant: start from "III",
Factor R test for `servico_intellectual`, "I" for `comercio`. -/
def simplesAnexo (activity : Activity) (fR : ℚ) : String :=
  if activity = .servico_intellectual then (if fR ≥ 0.28 then "III" else "V")
  else if activity = .comercio then "I"
  else "III"

/-- Schedule selection of the extended variant: the Factor R test applies
to `servico_intellectual` and to `hospitalar`. -/
def simplesAnexoExt (activity : Activity) (fR : ℚ) : String :=
  if activity = .servico_intellectual ∨ activity = .hospitalar then
    (if fR ≥ 0.28 then "III" else "V")
  else if activity = .comercio then "I"
  else "III"

/-- Table dispatch on the schedule name, as in the source conditional. -/
def tableFor (anexo : String) : List Bracket :=
  if anexo = "I" then ANEXO_I else if anexo = "III" then ANEXO_III else ANEXO_V

/-- Bracket lookup: `table.find(b => rbt12 <= b.limite) || table[table.length - 1]`. -/
def bracketFor (table : List Bracket) (rbt12 : ℚ) : Bracket :=
  (table.find? (fun b => rbt12 ≤ b.limite)).getD (table.getLastD ⟨0, 0, 0⟩)

/-- Effective Simples rate (as a fraction):
`rbt12 > 0 ? ((rbt12 * aliquota) - deduzir) / rbt12 : aliquota`. -/
def aliquotaEfetivaOf (rbt12 : ℚ) (b : Bracket) : ℚ :=
  if rbt12 > 0 then ((rbt12 * b.aliquota) - b.deduzir) / rbt12 else b.aliquota

/-- Base IRPJ presumption rate by activity (`presirpj` before the LC 224 step). -/
def presirpj (activity : Activity) : ℚ :=
  if activity = .comercio ∨ activity = .industria then 0.08
  else if activity = .hospitalar then 0.08
  else 0.32

/-- Base CSLL presumption rate by activity (`prescsll` before the LC 224 step). -/
def prescsll (activity : Activity) : ℚ :=
  if activity = .comercio ∨ activity = .industria then 0.12
  else if activity = .hospitalar then 0.12
  else 0.32

/-- IRPJ presumption rate after the LC 224/2025 rule: multiplied by 1.1
when `rbt12 > 5000000`. -/
def presirpjLC (activity : Activity) (rbt12 : ℚ) : ℚ :=
  if rbt12 > 5000000 then presirpj activity * 1.1 else presirpj activity

/-- CSLL presumption rate after the LC 224/2025 rule. -/
def prescsllLC (activity : Activity) (rbt12 : ℚ) : ℚ :=
  if rbt12 > 5000000 then prescsll activity * 1.1 else prescsll activity

/-- IRPJ from its base:
`baseIRPJ * 0.15 + (baseIRPJ > 20000 ? (baseIRPJ - 20000) * 0.10 : 0)`. -/
def irpjOf (baseIRPJ : ℚ) : ℚ :=
  baseIRPJ * 0.15 + (if baseIRPJ > 20000 then (baseIRPJ - 20000) * 0.10 else 0)

/-- ISSQN: `monthlyBilling * issRate` for the three service activities, else 0. -/
def issqnOf (activity : Activity) (monthlyBilling issRate : ℚ) : ℚ :=
  if activity = .servico_geral ∨ activity = .servico_intellectual ∨ activity = .hospitalar then
    monthlyBilling * issRate
  else 0

/-- Presumed-profit total `lpTotal = irpj + csll + pis + cofins + issqn`,
with the components as computed by both variants. -/
def lpTotal (rbt12 monthlyBilling : ℚ) (activity : Activity) (issRate : ℚ) : ℚ :=
  irpjOf (monthlyBilling * presirpjLC activity rbt12)
  + (monthlyBilling * prescsllLC activity rbt12) * 0.09
  + monthlyBilling * 0.0065
  + monthlyBilling * 0.03
  + issqnOf activity monthlyBilling issRate

/-- Recommendation string shared by both variants. -/
def sugestaoOf (lpT simplesTotal : ℚ) (isB2B : Bool) : String :=
  let base := if lpT < simplesTotal then "Lucro Presumido" else "Simples Nacional"
  if isB2B ∧ base = "Simples Nacional" then base ++ " (Considere Regime Híbrido para B2B)"
  else base

/-- Output sub-record `simples` of `TaxResults`. -/
structure SimplesResult where
  elegivel : Bool
  anexo : String
  aliquotaEfetiva : ℚ
  aliquotaNominal : ℚ
  parcelaDeduzir : ℚ
  dasTotal : ℚ
  fatorR : ℚ
deriving DecidableEq, Repr

/-- Output sub-record `lucroPresumido` of `TaxResults`.  The field
`aliquotaEfetiva` is the only numeric output produced by an unguarded
division; `none` stands for the non-finite JavaScript value. -/
structure LucroPresumidoResult where
  elegivel : Bool
  irpj : ℚ
  csll : ℚ
  pis : ℚ
  cofins : ℚ
  issqn : ℚ
  total : ℚ
  aliquotaEfetiva : Option ℚ
  presuncaoirpj : ℚ
  isLC224Applied : Bool
deriving DecidableEq, Repr

/-- Output sub-record `reforma2026` of `TaxResults`. -/
structure Reforma2026Result where
  cbs_ibs : ℚ
  percentualReducao : ℚ
  fase : String
deriving DecidableEq, Repr

/-- Output sub-record `folha`, present only in the extended variant. -/
structure FolhaResult where
  inssPatronal : ℚ
  rat : ℚ
  terceiros : ℚ
  totalEncargos : ℚ
  percentualSobreFolha : ℚ
  isSimplesSubstituido : Bool
deriving DecidableEq, Repr

/-- Result record of the six-parameter variant. -/
structure TaxResults where
  simples : SimplesResult
  lucroPresumido : LucroPresumidoResult
  reforma2026 : Reforma2026Result
  sugestao : String
deriving DecidableEq, Repr

/-- Result record of the extended nine-parameter variant. -/
structure TaxResultsExt where
  simples : SimplesResult
  lucroPresumido : LucroPresumidoResult
  reforma2026 : Reforma2026Result
  folha : FolhaResult
  sugestao : String
deriving DecidableEq, Repr

/-- The six-parameter `calculateTaxEngine` (file part 2, lines 265-362). -/
def calculateTaxEngine (rbt12 monthlyBilling monthlyPayroll : ℚ)
    (activity : Activity) (isB2B : Bool) (issRate : ℚ) : TaxResults :=
  let fR := fatorR rbt12 monthlyPayroll
  let anexo := simplesAnexo activity fR
  let b := bracketFor (tableFor anexo) rbt12
  let aE := aliquotaEfetivaOf rbt12 b
  let simplesTotal := monthlyBilling * aE
  let total := lpTotal rbt12 monthlyBilling activity issRate
  { simples :=
      { elegivel := decide (rbt12 ≤ 4800000)
        anexo := anexo
        aliquotaEfetiva := aE * 100
        aliquotaNominal := b.aliquota * 100
        parcelaDeduzir := b.deduzir
        dasTotal := simplesTotal
        fatorR := fR * 100 }
    lucroPresumido :=
      { elegivel := decide (rbt12 ≤ 78000000)
        irpj := irpjOf (monthlyBilling * presirpjLC activity rbt12)
        csll := (monthlyBilling * prescsllLC activity rbt12) * 0.09
        pis := monthlyBilling * 0.0065
        cofins := monthlyBilling * 0.03
        issqn := issqnOf activity monthlyBilling issRate
        total := total
        aliquotaEfetiva := (jsDiv total monthlyBilling).map (fun x => x * 100)
        presuncaoirpj := presirpjLC activity rbt12 * 100
        isLC224Applied := decide (rbt12 > 5000000) }
    reforma2026 :=
      { cbs_ibs := monthlyBilling * 0.01
        percentualReducao := 0
        fase := "Teste (1%)" }
    sugestao := sugestaoOf total simplesTotal isB2B }

/-- The extended nine-parameter `calculateTaxEngine` (file part 1, lines
73-200).  The two-phase construction of the source (record literal, then
in-place update of `totalEncargos` and `percentualSobreFolha`) is embedded
by computing the final field values directly. -/
def calculateTaxEngineExt (rbt12 monthlyBilling monthlyPayroll : ℚ)
    (activity : Activity) (isB2B : Bool)
    (issRate ratRate terceirosRate monthlyProLabore : ℚ) : TaxResultsExt :=
  let mSal := monthlySalaries monthlyPayroll monthlyProLabore
  let fR := fatorRExt rbt12 monthlyPayroll monthlyProLabore
  let anexo := simplesAnexoExt activity fR
  let b := bracketFor (tableFor anexo) rbt12
  let aE := aliquotaEfetivaOf rbt12 b
  let simplesTotal := monthlyBilling * aE
  let total := lpTotal rbt12 monthlyBilling activity issRate
  let inssPatronal := if anexo = "IV" ∨ total > 0 then monthlyPayroll * 0.20 else 0
  let rat := if anexo = "IV" ∨ total > 0 then mSal * ratRate else 0
  let terceiros := if total > 0 then mSal * terceirosRate else 0
  let totalEncargos :=
    if total > 0 then inssPatronal + rat + terceiros
    else if anexo = "IV" then inssPatronal + rat
    else 0
  { simples :=
      { elegivel := decide (rbt12 ≤ 4800000)
        anexo := anexo
        aliquotaEfetiva := aE * 100
        aliquotaNominal := b.aliquota * 100
        parcelaDeduzir := b.deduzir
        dasTotal := simplesTotal
        fatorR := fR * 100 }
    lucroPresumido :=
      { elegivel := decide (rbt12 ≤ 78000000)
        irpj := irpjOf (monthlyBilling * presirpjLC activity rbt12)
        csll := (monthlyBilling * prescsllLC activity rbt12) * 0.09
        pis := monthlyBilling * 0.0065
        cofins := monthlyBilling * 0.03
        issqn := issqnOf activity monthlyBilling issRate
        total := total
        aliquotaEfetiva := (jsDiv total monthlyBilling).map (fun x => x * 100)
        presuncaoirpj := presirpjLC activity rbt12 * 100
        isLC224Applied := decide (rbt12 > 5000000) }
    reforma2026 :=
      { cbs_ibs := monthlyBilling * 0.01
        percentualReducao := 0
        fase := "Teste (1%)" }
    folha :=
      { inssPatronal := inssPatronal
        rat := rat
        terceiros := terceiros
        totalEncargos := totalEncargos
        percentualSobreFolha :=
          if monthlyPayroll > 0 then (totalEncargos / monthlyPayroll) * 100 else 0
        isSimplesSubstituido := decide (anexo ≠ "IV") }
    sugestao := sugestaoOf total simplesTotal isB2B }

/-- Bracket lookup on a six-row table with the statutory ceilings reduces
to an if-ladder on the revenue. -/
theorem bracketFor_six (x : ℚ) (b1 b2 b3 b4 b5 b6 : Bracket)
    (h1 : b1.limite = 180000) (h2 : b2.limite = 360000) (h3 : b3.limite = 720000)
    (h4 : b4.limite = 1800000) (h5 : b5.limite = 3600000) (h6 : b6.limite = 4800000) :
    bracketFor [b1, b2, b3, b4, b5, b6] x =
      if x ≤ 180000 then b1 else if x ≤ 360000 then b2 else if x ≤ 720000 then b3
      else if x ≤ 1800000 then b4 else if x ≤ 3600000 then b5 else b6 := by
  unfold bracketFor
  by_cases c1 : x ≤ 180000
  · simp [List.find?, h1, c1]
  · by_cases c2 : x ≤ 360000
    · simp [List.find?, h1, h2, c1, c2]
    · by_cases c3 : x ≤ 720000
      · simp [List.find?, h1, h2, h3, c1, c2, c3]
      · by_cases c4 : x ≤ 1800000
        · simp [List.find?, h1, h2, h3, h4, c1, c2, c3, c4]
        · by_cases c5 : x ≤ 3600000
          · simp [List.find?, h1, h2, h3, h4, h5, c1, c2, c3, c4, c5]
          · by_cases c6 : x ≤ 4800000
            · simp [List.find?, h1, h2, h3, h4, h5, h6, c1, c2, c3, c4, c5, c6]
            · simp [List.find?, List.getLastD, h1, h2, h3, h4, h5, h6, c1, c2, c3, c4, c5, c6]

/-- The selected bracket of a six-row table with the statutory ceilings is
a member of the table, is the minimal-ceiling row covering the revenue
whenever the revenue is within the 4800000 top ceiling, and is the last
row whenever the revenue exceeds every ceiling. -/
theorem bracket_spec_six (x : ℚ) (b1 b2 b3 b4 b5 b6 : Bracket)
    (h1 : b1.limite = 180000) (h2 : b2.limite = 360000) (h3 : b3.limite = 720000)
    (h4 : b4.limite = 1800000) (h5 : b5.limite = 3600000) (h6 : b6.limite = 4800000) :
    bracketFor [b1, b2, b3, b4, b5, b6] x ∈ [b1, b2, b3, b4, b5, b6]
    ∧ (x ≤ 4800000 →
        x ≤ (bracketFor [b1, b2, b3, b4, b5, b6] x).limite
        ∧ ∀ row ∈ [b1, b2, b3, b4, b5, b6], x ≤ row.limite →
            (bracketFor [b1, b2, b3, b4, b5, b6] x).limite ≤ row.limite)
    ∧ (4800000 < x → bracketFor [b1, b2, b3, b4, b5, b6] x = b6) := by
  rw [bracketFor_six x b1 b2 b3 b4 b5 b6 h1 h2 h3 h4 h5 h6]
  split_ifs with c1 c2 c3 c4 c5
  · refine ⟨by simp, fun hx => ⟨by rw [h1]; exact c1, ?_⟩, fun hx => absurd hx (by linarith)⟩
    intro row hrow
    fin_cases hrow <;> intro hxr <;> rw [h1] <;>
      simp only [h1, h2, h3, h4, h5, h6] <;> norm_num
  · refine ⟨by simp, fun hx => ⟨by rw [h2]; exact c2, ?_⟩, fun hx => absurd hx (by linarith)⟩
    intro row hrow
    fin_cases hrow <;> intro hxr <;> rw [h2] <;>
      simp only [h1, h2, h3, h4, h5, h6] at hxr ⊢ <;> linarith
  · refine ⟨by simp, fun hx => ⟨by rw [h3]; exact c3, ?_⟩, fun hx => absurd hx (by linarith)⟩
    intro row hrow
    fin_cases hrow <;> intro hxr <;> rw [h3] <;>
      simp only [h1, h2, h3, h4, h5, h6] at hxr ⊢ <;> linarith
  · refine ⟨by simp, fun hx => ⟨by rw [h4]; exact c4, ?_⟩, fun hx => absurd hx (by linarith)⟩
    intro row hrow
    fin_cases hrow <;> intro hxr <;> rw [h4] <;>
      simp only [h1, h2, h3, h4, h5, h6] at hxr ⊢ <;> linarith
  · refine ⟨by simp, fun hx => ⟨by rw [h5]; exact c5, ?_⟩, fun hx => absurd hx (by linarith)⟩
    intro row hrow
    fin_cases hrow <;> intro hxr <;> rw [h5] <;>
      simp only [h1, h2, h3, h4, h5, h6] at hxr ⊢ <;> linarith
  · refine ⟨by simp, fun hx => ⟨by rw [h6]; exact hx, ?_⟩, fun _ => rfl⟩
    intro row hrow
    fin_cases hrow <;> intro hxr <;> rw [h6] <;>
      simp only [h1, h2, h3, h4, h5, h6] at hxr ⊢ <;> linarith

/-- Claim C1 as stated is false on the extended variant: there,
`hospitalar` is also routed through the Factor R test, so schedule
selection for hospital service is not unconditionally "III".  Concretely,
payroll 10000 against rbt12 1200000 gives a factor below 0.28 and
schedule "V". -/
theorem C1_counterexample :
    (calculateTaxEngineExt 1200000 100000 10000 .hospitalar false 0.05 0.02 0.058 0).simples.anexo
      ≠ "III" := by
  norm_num [calculateTaxEngineExt, fatorRExt, massaSalarialComFGTS, monthlySalaries,
    simplesAnexoExt, max_def]
  decide

/-- Claim C1, amended: in the six-parameter variant, commerce selects "I",
intellectual service selects "III" exactly when its factor is at least
0.28 (else "V"), and industry, general service and hospital service select
"III" unconditionally.  In the extended variant, hospital service is also
factor-dependent, with the same 0.28 threshold on its FGTS-adjusted
factor; only industry and general service are unconditional there. -/
theorem C1_schedule_selection (rbt12 monthlyBilling monthlyPayroll : ℚ) (isB2B : Bool)
    (issRate ratRate terceirosRate monthlyProLabore : ℚ) :
    (calculateTaxEngine rbt12 monthlyBilling monthlyPayroll .comercio isB2B issRate).simples.anexo = "I"
    ∧ (calculateTaxEngine rbt12 monthlyBilling monthlyPayroll .industria isB2B issRate).simples.anexo = "III"
    ∧ (calculateTaxEngine rbt12 monthlyBilling monthlyPayroll .servico_geral isB2B issRate).simples.anexo = "III"
    ∧ (calculateTaxEngine rbt12 monthlyBilling monthlyPayroll .hospitalar isB2B issRate).simples.anexo = "III"
    ∧ (calculateTaxEngine rbt12 monthlyBilling monthlyPayroll .servico_intellectual isB2B issRate).simples.anexo
        = (if fatorR rbt12 monthlyPayroll ≥ 0.28 then "III" else "V")
    ∧ (calculateTaxEngineExt rbt12 monthlyBilling monthlyPayroll .comercio isB2B issRate ratRate terceirosRate monthlyProLabore).simples.anexo = "I"
    ∧ (calculateTaxEngineExt rbt12 monthlyBilling monthlyPayroll .industria isB2B issRate ratRate terceirosRate monthlyProLabore).simples.anexo = "III"
    ∧ (calculateTaxEngineExt rbt12 monthlyBilling monthlyPayroll .servico_geral isB2B issRate ratRate terceirosRate monthlyProLabore).simples.anexo = "III"
    ∧ (calculateTaxEngineExt rbt12 monthlyBilling monthlyPayroll .servico_intellectual isB2B issRate ratRate terceirosRate monthlyProLabore).simples.anexo
        = (if fatorRExt rbt12 monthlyPayroll monthlyProLabore ≥ 0.28 then "III" else "V")
    ∧ (calculateTaxEngineExt rbt12 monthlyBilling monthlyPayroll .hospitalar isB2B issRate ratRate terceirosRate monthlyProLabore).simples.anexo
        = (if fatorRExt rbt12 monthlyPayroll monthlyProLabore ≥ 0.28 then "III" else "V") :=
  ⟨rfl, rfl, rfl, rfl, rfl, rfl, rfl, rfl, rfl, rfl⟩

/-- Claim C2 as stated is false on the extended variant: its factor uses
the FGTS-adjusted payroll mass, not `monthlyPayroll * 12 / rbt12`.  With
payroll 10000 and rbt12 120000 the claimed formula gives a reported
`fatorR` of 100, but the engine reports 108. -/
theorem C2_counterexample :
    (calculateTaxEngineExt 120000 0 10000 .servico_geral false 0.05 0.02 0.058 0).simples.fatorR
      ≠ ((10000 * 12) / 120000) * 100 := by
  norm_num [calculateTaxEngineExt, fatorRExt, massaSalarialComFGTS, monthlySalaries, max_def]

/-- Claim C2, amended: in the six-parameter variant the factor equals
`(monthlyPayroll * 12) / rbt12` when `rbt12 > 0` and 0 otherwise, and is
reported scaled by 100 as `fatorR`.  In the extended variant the factor
instead annualizes the FGTS-adjusted payroll mass
`(max 0 (monthlyPayroll - monthlyProLabore)) * 1.08 + monthlyProLabore`. -/
theorem C2_fator_r (rbt12 monthlyBilling monthlyPayroll : ℚ) (activity : Activity) (isB2B : Bool)
    (issRate ratRate terceirosRate monthlyProLabore : ℚ) :
    (calculateTaxEngine rbt12 monthlyBilling monthlyPayroll activity isB2B issRate).simples.fatorR
      = (if rbt12 > 0 then (monthlyPayroll * 12) / rbt12 else 0) * 100
    ∧ (calculateTaxEngineExt rbt12 monthlyBilling monthlyPayroll activity isB2B issRate ratRate terceirosRate monthlyProLabore).simples.fatorR
      = (if rbt12 > 0 then ((max 0 (monthlyPayroll - monthlyProLabore)) * 1.08 + monthlyProLabore) * 12 / rbt12 else 0) * 100 :=
  ⟨rfl, rfl⟩

/-- Claim C8: the concrete scenario rbt12 = 1200000, monthlyBilling =
100000, monthlyPayroll = 30000, intellectual service, issRate = 0.05
yields factor 0.30 (reported as 30), schedule "III", the 1800000-ceiling
bracket with nominal rate 16% and deduction 35640, effective rate exactly
13.03%, and monthly unified tax exactly 13030, for either value of
`isB2B`. -/
theorem C8_concrete_scenario (isB2B : Bool) :
    (calculateTaxEngine 1200000 100000 30000 .servico_intellectual isB2B 0.05).simples.fatorR = 30
    ∧ (calculateTaxEngine 1200000 100000 30000 .servico_intellectual isB2B 0.05).simples.anexo = "III"
    ∧ (calculateTaxEngine 1200000 100000 30000 .servico_intellectual isB2B 0.05).simples.aliquotaNominal = 16
    ∧ (calculateTaxEngine 1200000 100000 30000 .servico_intellectual isB2B 0.05).simples.parcelaDeduzir = 35640
    ∧ (calculateTaxEngine 1200000 100000 30000 .servico_intellectual isB2B 0.05).simples.aliquotaEfetiva
        = (1200000 * 0.16 - 35640) / 1200000 * 100
    ∧ (calculateTaxEngine 1200000 100000 30000 .servico_intellectual isB2B 0.05).simples.aliquotaEfetiva = 13.03
    ∧ (calculateTaxEngine 1200000 100000 30000 .servico_intellectual isB2B 0.05).simples.dasTotal = 13030 := by
  refine ⟨?_, ?_, ?_, ?_, ?_, ?_, ?_⟩ <;>
    norm_num [calculateTaxEngine, fatorR, simplesAnexo, tableFor, bracketFor,
      aliquotaEfetivaOf, ANEXO_I, ANEXO_III, ANEXO_V, List.find?, List.getLastD]

/-- Claim C5: the LC 224 surcharge flag is true exactly when
`rbt12 > 5000000`; above the threshold both presumption rates used by
the presumed-profit computation (IRPJ, including its reported
`presuncaoirpj` percentage, and CSLL, as used inside the CSLL tax) are
exactly 1.1 times the base rates, and below or at the threshold the
unmultiplied base rates are used.  The base rates are 0.08/0.12 for
commerce, industry and hospital service and 0.32/0.32 otherwise. -/
theorem C5_lc224_surcharge (rbt12 monthlyBilling monthlyPayroll : ℚ)
    (activity : Activity) (isB2B : Bool) (issRate : ℚ) :
    (calculateTaxEngine rbt12 monthlyBilling monthlyPayroll activity isB2B issRate).lucroPresumido.isLC224Applied
        = decide (rbt12 > 5000000)
    ∧ (calculateTaxEngine rbt12 monthlyBilling monthlyPayroll activity isB2B issRate).lucroPresumido.presuncaoirpj
        = (if rbt12 > 5000000 then presirpj activity * 1.1 else presirpj activity) * 100
    ∧ (calculateTaxEngine rbt12 monthlyBilling monthlyPayroll activity isB2B issRate).lucroPresumido.irpj
        = irpjOf (monthlyBilling * (if rbt12 > 5000000 then presirpj activity * 1.1 else presirpj activity))
    ∧ (calculateTaxEngine rbt12 monthlyBilling monthlyPayroll activity isB2B issRate).lucroPresumido.csll
        = (monthlyBilling * (if rbt12 > 5000000 then prescsll activity * 1.1 else prescsll activity)) * 0.09
    ∧ presirpj activity
        = (if activity = .comercio ∨ activity = .industria ∨ activity = .hospitalar then 0.08 else 0.32)
    ∧ prescsll activity
        = (if activity = .comercio ∨ activity = .industria ∨ activity = .hospitalar then 0.12 else 0.32) := by
  refine ⟨rfl, rfl, rfl, rfl, ?_, ?_⟩ <;> cases activity <;> rfl

/-- Closed form of the recommendation string. -/
theorem sugestaoOf_eq (T S : ℚ) (b : Bool) :
    sugestaoOf T S b
      = (if T < S then "Lucro Presumido"
         else if b = true then "Simples Nacional (Considere Regime Híbrido para B2B)"
         else "Simples Nacional") := by
  unfold sugestaoOf
  by_cases h : T < S
  · simp only [if_pos h]
    rw [if_neg]
    simp
  · cases b
    · simp [h]
    · simp only [if_neg h, Bool.true_and, if_pos rfl]
      rfl

/-- Claim C9: the recommendation names the cheaper regime by comparing
the presumed-profit total with the unified monthly tax, breaking the tie
in favor of the unified regime, and the hybrid-regime qualifier is
appended exactly when the unified regime wins that comparison and the
profile is B2B, in both variants. -/
theorem C9_sugestao (rbt12 monthlyBilling monthlyPayroll : ℚ) (activity : Activity)
    (isB2B : Bool) (issRate ratRate terceirosRate monthlyProLabore : ℚ) :
    (calculateTaxEngine rbt12 monthlyBilling monthlyPayroll activity isB2B issRate).sugestao
      = (if (calculateTaxEngine rbt12 monthlyBilling monthlyPayroll activity isB2B issRate).lucroPresumido.total
            < (calculateTaxEngine rbt12 monthlyBilling monthlyPayroll activity isB2B issRate).simples.dasTotal
         then "Lucro Presumido"
         else if isB2B = true then "Simples Nacional (Considere Regime Híbrido para B2B)"
         else "Simples Nacional")
    ∧ (calculateTaxEngineExt rbt12 monthlyBilling monthlyPayroll activity isB2B issRate ratRate terceirosRate monthlyProLabore).sugestao
      = (if (calculateTaxEngineExt rbt12 monthlyBilling monthlyPayroll activity isB2B issRate ratRate terceirosRate monthlyProLabore).lucroPresumido.total
            < (calculateTaxEngineExt rbt12 monthlyBilling monthlyPayroll activity isB2B issRate ratRate terceirosRate monthlyProLabore).simples.dasTotal
         then "Lucro Presumido"
         else if isB2B = true then "Simples Nacional (Considere Regime Híbrido para B2B)"
         else "Simples Nacional") := by
  exact ⟨sugestaoOf_eq _ _ _, sugestaoOf_eq _ _ _⟩

/-- Claim C10: in the extended variant the selected schedule is always
one of "I", "III", "V" and never "IV"; hence the `folha` branches guarded
by the schedule being "IV" are unreachable (the payroll-charge fields
depend only on whether the presumed-profit total is positive) and
`isSimplesSubstituido` is always true. -/
theorem C10_no_anexo_iv (rbt12 monthlyBilling monthlyPayroll : ℚ) (activity : Activity)
    (isB2B : Bool) (issRate ratRate terceirosRate monthlyProLabore : ℚ) :
    ((calculateTaxEngineExt rbt12 monthlyBilling monthlyPayroll activity isB2B issRate ratRate terceirosRate monthlyProLabore).simples.anexo = "I"
      ∨ (calculateTaxEngineExt rbt12 monthlyBilling monthlyPayroll activity isB2B issRate ratRate terceirosRate monthlyProLabore).simples.anexo = "III"
      ∨ (calculateTaxEngineExt rbt12 monthlyBilling monthlyPayroll activity isB2B issRate ratRate terceirosRate monthlyProLabore).simples.anexo = "V")
    ∧ (calculateTaxEngineExt rbt12 monthlyBilling monthlyPayroll activity isB2B issRate ratRate terceirosRate monthlyProLabore).simples.anexo ≠ "IV"
    ∧ (calculateTaxEngineExt rbt12 monthlyBilling monthlyPayroll activity isB2B issRate ratRate terceirosRate monthlyProLabore).folha.isSimplesSubstituido = true
    ∧ (calculateTaxEngineExt rbt12 monthlyBilling monthlyPayroll activity isB2B issRate ratRate terceirosRate monthlyProLabore).folha.inssPatronal
        = (if lpTotal rbt12 monthlyBilling activity issRate > 0 then monthlyPayroll * 0.20 else 0)
    ∧ (calculateTaxEngineExt rbt12 monthlyBilling monthlyPayroll activity isB2B issRate ratRate terceirosRate monthlyProLabore).folha.rat
        = (if lpTotal rbt12 monthlyBilling activity issRate > 0
           then monthlySalaries monthlyPayroll monthlyProLabore * ratRate else 0)
    ∧ (calculateTaxEngineExt rbt12 monthlyBilling monthlyPayroll activity isB2B issRate ratRate terceirosRate monthlyProLabore).folha.totalEncargos
        = (if lpTotal rbt12 monthlyBilling activity issRate > 0
           then (calculateTaxEngineExt rbt12 monthlyBilling monthlyPayroll activity isB2B issRate ratRate terceirosRate monthlyProLabore).folha.inssPatronal
                + (calculateTaxEngineExt rbt12 monthlyBilling monthlyPayroll activity isB2B issRate ratRate terceirosRate monthlyProLabore).folha.rat
                + (calculateTaxEngineExt rbt12 monthlyBilling monthlyPayroll activity isB2B issRate ratRate terceirosRate monthlyProLabore).folha.terceiros
           else 0) := by
  have hanexo : ∀ fR : ℚ, simplesAnexoExt activity fR = "I" ∨ simplesAnexoExt activity fR = "III"
      ∨ simplesAnexoExt activity fR = "V" := by
    intro fR
    unfold simplesAnexoExt
    split_ifs <;> simp
  have hne : ∀ fR : ℚ, simplesAnexoExt activity fR ≠ "IV" := by
    intro fR
    rcases hanexo fR with h | h | h <;> rw [h] <;> decide
  refine ⟨hanexo _, hne _, ?_, ?_, ?_, ?_⟩
  · simp only [calculateTaxEngineExt]
    exact decide_eq_true (hne _)
  · simp only [calculateTaxEngineExt]
    simp [hne]
  · simp only [calculateTaxEngineExt]
    simp [hne]
  · simp only [calculateTaxEngineExt]
    simp [hne]

/-- Claim C6: the chosen schedule has six rows; the selected bracket is a
row of it, is the minimal-ceiling row whose ceiling covers `rbt12`
whenever `rbt12` is within the 4800000 top ceiling (hence the first
matching row, the ceilings being strictly increasing), and is the last
row, of ceiling 4800000, when `rbt12` exceeds every ceiling; the
effective rate output is `((rbt12 * nominal) - deduction) / rbt12` for
`rbt12 > 0` and the nominal rate for `rbt12 = 0`, scaled to percent; and
`dasTotal` is `monthlyBilling` times that effective-rate fraction. -/
theorem C6_bracket_lookup (rbt12 monthlyBilling monthlyPayroll : ℚ) (activity : Activity)
    (isB2B : Bool) (issRate : ℚ) :
    (tableFor (simplesAnexo activity (fatorR rbt12 monthlyPayroll))).length = 6
    ∧ bracketFor (tableFor (simplesAnexo activity (fatorR rbt12 monthlyPayroll))) rbt12
        ∈ tableFor (simplesAnexo activity (fatorR rbt12 monthlyPayroll))
    ∧ (rbt12 ≤ 4800000 →
        rbt12 ≤ (bracketFor (tableFor (simplesAnexo activity (fatorR rbt12 monthlyPayroll))) rbt12).limite
        ∧ ∀ row ∈ tableFor (simplesAnexo activity (fatorR rbt12 monthlyPayroll)),
            rbt12 ≤ row.limite →
            (bracketFor (tableFor (simplesAnexo activity (fatorR rbt12 monthlyPayroll))) rbt12).limite
              ≤ row.limite)
    ∧ (4800000 < rbt12 →
        bracketFor (tableFor (simplesAnexo activity (fatorR rbt12 monthlyPayroll))) rbt12
          = (tableFor (simplesAnexo activity (fatorR rbt12 monthlyPayroll))).getLastD ⟨0, 0, 0⟩
        ∧ (bracketFor (tableFor (simplesAnexo activity (fatorR rbt12 monthlyPayroll))) rbt12).limite
            = 4800000)
    ∧ (calculateTaxEngine rbt12 monthlyBilling monthlyPayroll activity isB2B issRate).simples.aliquotaEfetiva
        = (if rbt12 > 0
           then ((rbt12 * (bracketFor (tableFor (simplesAnexo activity (fatorR rbt12 monthlyPayroll))) rbt12).aliquota)
                  - (bracketFor (tableFor (simplesAnexo activity (fatorR rbt12 monthlyPayroll))) rbt12).deduzir) / rbt12
           else (bracketFor (tableFor (simplesAnexo activity (fatorR rbt12 monthlyPayroll))) rbt12).aliquota) * 100
    ∧ (calculateTaxEngine rbt12 monthlyBilling monthlyPayroll activity isB2B issRate).simples.dasTotal
        = monthlyBilling *
          (if rbt12 > 0
           then ((rbt12 * (bracketFor (tableFor (simplesAnexo activity (fatorR rbt12 monthlyPayroll))) rbt12).aliquota)
                  - (bracketFor (tableFor (simplesAnexo activity (fatorR rbt12 monthlyPayroll))) rbt12).deduzir) / rbt12
           else (bracketFor (tableFor (simplesAnexo activity (fatorR rbt12 monthlyPayroll))) rbt12).aliquota) := by
  have ht : tableFor (simplesAnexo activity (fatorR rbt12 monthlyPayroll)) = ANEXO_I
      ∨ tableFor (simplesAnexo activity (fatorR rbt12 monthlyPayroll)) = ANEXO_III
      ∨ tableFor (simplesAnexo activity (fatorR rbt12 monthlyPayroll)) = ANEXO_V := by
    unfold simplesAnexo tableFor
    split_ifs <;> simp
  obtain ht | ht | ht := ht
  · have h := bracket_spec_six rbt12 ⟨180000, 0.04, 0⟩ ⟨360000, 0.073, 5940⟩ ⟨720000, 0.095, 13860⟩
      ⟨1800000, 0.107, 22500⟩ ⟨3600000, 0.143, 87300⟩ ⟨4800000, 0.19, 378000⟩
      rfl rfl rfl rfl rfl rfl
    refine ⟨?_, ?_, ?_, ?_, rfl, rfl⟩
    · rw [ht]; rfl
    · rw [ht]; exact h.1
    · rw [ht]; exact h.2.1
    · rw [ht]; exact fun hx => ⟨h.2.2 hx, congrArg Bracket.limite (h.2.2 hx)⟩
  · have h := bracket_spec_six rbt12 ⟨180000, 0.06, 0⟩ ⟨360000, 0.112, 9360⟩ ⟨720000, 0.135, 17640⟩
      ⟨1800000, 0.16, 35640⟩ ⟨3600000, 0.21, 125640⟩ ⟨4800000, 0.33, 648000⟩
      rfl rfl rfl rfl rfl rfl
    refine ⟨?_, ?_, ?_, ?_, rfl, rfl⟩
    · rw [ht]; rfl
    · rw [ht]; exact h.1
    · rw [ht]; exact h.2.1
    · rw [ht]; exact fun hx => ⟨h.2.2 hx, congrArg Bracket.limite (h.2.2 hx)⟩
  · have h := bracket_spec_six rbt12 ⟨180000, 0.155, 0⟩ ⟨360000, 0.18, 4500⟩ ⟨720000, 0.195, 9900⟩
      ⟨1800000, 0.205, 17100⟩ ⟨3600000, 0.23, 62100⟩ ⟨4800000, 0.305, 540000⟩
      rfl rfl rfl rfl rfl rfl
    refine ⟨?_, ?_, ?_, ?_, rfl, rfl⟩
    · rw [ht]; rfl
    · rw [ht]; exact h.1
    · rw [ht]; exact h.2.1
    · rw [ht]; exact fun hx => ⟨h.2.2 hx, congrArg Bracket.limite (h.2.2 hx)⟩

/-- Witness for C6 at a concrete input: rbt12 200000 with commerce is
within the unified ceiling and its selected bracket covers it. -/
theorem C6_witness :
    (200000 : ℚ) ≤ 4800000
    ∧ (200000 : ℚ) ≤ (bracketFor (tableFor (simplesAnexo .comercio (fatorR 200000 0))) 200000).limite :=
  ⟨by norm_num, ((C6_bracket_lookup 200000 100 0 .comercio false 0.05).2.2.1 (by norm_num)).1⟩

/-- Claim C7: the unified eligibility flag is true exactly when
`rbt12 ≤ 4800000` and the presumed-profit eligibility flag exactly when
`rbt12 ≤ 78000000`; above the unified ceiling the flag is false but
`dasTotal` is still computed by the same bracket formula (with the
division branch taken, `rbt12` being positive there). -/
theorem C7_eligibility (rbt12 monthlyBilling monthlyPayroll : ℚ) (activity : Activity)
    (isB2B : Bool) (issRate : ℚ) :
    (calculateTaxEngine rbt12 monthlyBilling monthlyPayroll activity isB2B issRate).simples.elegivel
        = decide (rbt12 ≤ 4800000)
    ∧ (calculateTaxEngine rbt12 monthlyBilling monthlyPayroll activity isB2B issRate).lucroPresumido.elegivel
        = decide (rbt12 ≤ 78000000)
    ∧ (4800000 < rbt12 →
        (calculateTaxEngine rbt12 monthlyBilling monthlyPayroll activity isB2B issRate).simples.elegivel = false
        ∧ (calculateTaxEngine rbt12 monthlyBilling monthlyPayroll activity isB2B issRate).simples.dasTotal
            = monthlyBilling *
              (((rbt12 * (bracketFor (tableFor (simplesAnexo activity (fatorR rbt12 monthlyPayroll))) rbt12).aliquota)
                - (bracketFor (tableFor (simplesAnexo activity (fatorR rbt12 monthlyPayroll))) rbt12).deduzir) / rbt12)) := by
  refine ⟨rfl, rfl, fun hx => ⟨?_, ?_⟩⟩
  · exact decide_eq_false (by linarith)
  · show monthlyBilling
        * aliquotaEfetivaOf rbt12 (bracketFor (tableFor (simplesAnexo activity (fatorR rbt12 monthlyPayroll))) rbt12)
        = _
    unfold aliquotaEfetivaOf
    rw [if_pos (show rbt12 > 0 by linarith)]

/-- Witness for C7 at rbt12 5000000: above the unified ceiling yet the
eligibility flag is computed (false). -/
theorem C7_witness :
    (4800000 : ℚ) < 5000000
    ∧ (calculateTaxEngine 5000000 1 0 .comercio false 0.05).simples.elegivel = false :=
  ⟨by norm_num, ((C7_eligibility 5000000 1 0 .comercio false 0.05).2.2 (by norm_num)).1⟩

/-- Claim C3 as stated is false: the progressive IRPJ surcharge makes the
presumed-profit total non-linear in revenue.  Splitting 100000 into
60000 and 40000 for intellectual service (presumption base 32000 above
the 20000 surcharge threshold) gives split totals summing to 16330
against 17530 undivided. -/
theorem C3_counterexample :
    (calculateTaxEngine 100000 60000 0 .servico_intellectual false 0.05).lucroPresumido.total
      + (calculateTaxEngine 100000 40000 0 .servico_intellectual false 0.05).lucroPresumido.total
      ≠ (calculateTaxEngine 100000 100000 0 .servico_intellectual false 0.05).lucroPresumido.total := by
  norm_num [calculateTaxEngine, lpTotal, irpjOf, issqnOf, presirpjLC, prescsllLC, presirpj,
    prescsll,
    (by decide : ¬(Activity.servico_intellectual = Activity.comercio
      ∨ Activity.servico_intellectual = Activity.industria)),
    (by decide : ¬(Activity.servico_intellectual = Activity.hospitalar))]

/-- Claim C3, amended: the 60/40 same-activity split sum equals the
undivided presumed-profit total whenever the undivided presumed IRPJ base
`monthlyBilling * presumptionRate` does not exceed the 20000 progressive
surcharge threshold (with non-negative billing); once the threshold is
crossed the identity fails, as the counterexample shows. -/
theorem C3_split_linearity (rbt12 monthlyPayroll issRate : ℚ) (activity : Activity) (isB2B : Bool)
    (monthlyBilling : ℚ) (hmb : 0 ≤ monthlyBilling)
    (hbase : monthlyBilling * presirpjLC activity rbt12 ≤ 20000) :
    (calculateTaxEngine rbt12 (0.6 * monthlyBilling) monthlyPayroll activity isB2B issRate).lucroPresumido.total
      + (calculateTaxEngine rbt12 (0.4 * monthlyBilling) monthlyPayroll activity isB2B issRate).lucroPresumido.total
      = (calculateTaxEngine rbt12 monthlyBilling monthlyPayroll activity isB2B issRate).lucroPresumido.total := by
  have hpres : 0 ≤ presirpjLC activity rbt12 := by
    unfold presirpjLC presirpj
    split_ifs <;> norm_num
  have hb0 : 0 ≤ monthlyBilling * presirpjLC activity rbt12 := mul_nonneg hmb hpres
  have key : ∀ y : ℚ, 0 ≤ y → y ≤ 20000 → irpjOf (0.6 * y) + irpjOf (0.4 * y) = irpjOf y := by
    intro y hy hy2
    unfold irpjOf
    rw [if_neg (by linarith), if_neg (by linarith), if_neg (by linarith)]
    ring
  show lpTotal rbt12 (0.6 * monthlyBilling) activity issRate
      + lpTotal rbt12 (0.4 * monthlyBilling) activity issRate
      = lpTotal rbt12 monthlyBilling activity issRate
  unfold lpTotal issqnOf
  have e6 : 0.6 * monthlyBilling * presirpjLC activity rbt12
      = 0.6 * (monthlyBilling * presirpjLC activity rbt12) := by ring
  have e4 : 0.4 * monthlyBilling * presirpjLC activity rbt12
      = 0.4 * (monthlyBilling * presirpjLC activity rbt12) := by ring
  rw [e6, e4]
  split_ifs
  · linear_combination key (monthlyBilling * presirpjLC activity rbt12) hb0 hbase
  · linear_combination key (monthlyBilling * presirpjLC activity rbt12) hb0 hbase

/-- Witness for the amended C3: commerce with billing 100000 keeps the
IRPJ base at 8000, below the surcharge threshold, and the split sum
equals the undivided total. -/
theorem C3_witness :
    (0 : ℚ) ≤ 100000
    ∧ (100000 : ℚ) * presirpjLC .comercio 100000 ≤ 20000
    ∧ (calculateTaxEngine 100000 (0.6 * 100000) 0 .comercio false 0.05).lucroPresumido.total
        + (calculateTaxEngine 100000 (0.4 * 100000) 0 .comercio false 0.05).lucroPresumido.total
      = (calculateTaxEngine 100000 100000 0 .comercio false 0.05).lucroPresumido.total :=
  ⟨by norm_num, by norm_num [presirpjLC, presirpj],
   C3_split_linearity 100000 0 0.05 .comercio false 100000 (by norm_num)
     (by norm_num [presirpjLC, presirpj])⟩

/-- Claim C4 as stated is false: at `monthlyBilling = 0` the
presumed-profit effective rate `(lpTotal / monthlyBilling) * 100` is an
unguarded zero-denominator division, so that output field is non-finite
(modelled as `none`), not a defined fallback. -/
theorem C4_counterexample :
    (calculateTaxEngine 1000 0 0 .comercio false 0.05).lucroPresumido.aliquotaEfetiva = none := by
  simp [calculateTaxEngine, jsDiv]

/-- Claim C4, amended: the engine is total and every division except the
presumed-profit effective rate is guarded with a defined fallback; that
one field is non-finite exactly when `monthlyBilling = 0` (in both
variants) and otherwise carries the finite quotient; the guarded
fallbacks hold: at `rbt12 = 0` the Simples effective rate falls back to
the nominal rate and the factor to 0, and at `monthlyPayroll = 0` the
payroll percentage of the extended variant falls back to 0. -/
theorem C4_division_guards (rbt12 monthlyBilling monthlyPayroll : ℚ) (activity : Activity)
    (isB2B : Bool) (issRate ratRate terceirosRate monthlyProLabore : ℚ) :
    ((calculateTaxEngine rbt12 monthlyBilling monthlyPayroll activity isB2B issRate).lucroPresumido.aliquotaEfetiva
        = none ↔ monthlyBilling = 0)
    ∧ (monthlyBilling ≠ 0 →
        (calculateTaxEngine rbt12 monthlyBilling monthlyPayroll activity isB2B issRate).lucroPresumido.aliquotaEfetiva
          = some ((lpTotal rbt12 monthlyBilling activity issRate / monthlyBilling) * 100))
    ∧ (rbt12 = 0 →
        (calculateTaxEngine rbt12 monthlyBilling monthlyPayroll activity isB2B issRate).simples.aliquotaEfetiva
          = (calculateTaxEngine rbt12 monthlyBilling monthlyPayroll activity isB2B issRate).simples.aliquotaNominal
        ∧ (calculateTaxEngine rbt12 monthlyBilling monthlyPayroll activity isB2B issRate).simples.fatorR = 0)
    ∧ ((calculateTaxEngineExt rbt12 monthlyBilling monthlyPayroll activity isB2B issRate ratRate terceirosRate monthlyProLabore).lucroPresumido.aliquotaEfetiva
        = none ↔ monthlyBilling = 0)
    ∧ (monthlyPayroll = 0 →
        (calculateTaxEngineExt rbt12 monthlyBilling monthlyPayroll activity isB2B issRate ratRate terceirosRate monthlyProLabore).folha.percentualSobreFolha
          = 0) := by
  refine ⟨?_, ?_, ?_, ?_, ?_⟩
  · simp only [calculateTaxEngine]
    unfold jsDiv
    split_ifs with h
    · simp [h]
    · simp [h]
  · intro h
    simp only [calculateTaxEngine]
    unfold jsDiv
    rw [if_neg h]
    rfl
  · intro h
    subst h
    constructor
    · simp only [calculateTaxEngine]
      unfold aliquotaEfetivaOf
      rw [if_neg (by norm_num)]
    · simp only [calculateTaxEngine]
      unfold fatorR
      rw [if_neg (by norm_num)]
      ring
  · simp only [calculateTaxEngineExt]
    unfold jsDiv
    split_ifs with h
    · simp [h]
    · simp [h]
  · intro h
    subst h
    simp only [calculateTaxEngineExt]
    norm_num

/-- Witness for the amended C4: at billing 2 the presumed-profit
effective rate is the finite quotient. -/
theorem C4_witness :
    (2 : ℚ) ≠ 0
    ∧ (calculateTaxEngine 0 2 0 .comercio false 0.05).lucroPresumido.aliquotaEfetiva
        = some ((lpTotal 0 2 .comercio 0.05 / 2) * 100) :=
  ⟨by norm_num, (C4_division_guards 0 2 0 .comercio false 0.05 0.02 0.058 0).2.1 (by norm_num)⟩

end TanTax
